import Mathlib

/-!
Verification development for the blog-panel HTTP service
(`src/blogsPanel.js`).  The source file contains two variants of the same
Express service:

* the *simpler* variant (lines 1-111): local-disk image storage, no
  identifier validation, `category !== "all"` list filter, schema
  `{title, content, category, author, image}`;
* the *richer* variant (lines 112-358): Cloudinary image storage,
  `mongoose.Types.ObjectId.isValid` checks on `:id` routes, schema with
  `subcategory`, `imagePublicId` and `status` enum fields, and truthiness
  based (`if (category) ...`) list filters.

We embed both variants shallowly.  JavaScript strings that may be
`undefined`/`null` are modelled as `Option String` (with `none` standing
for absent/null); JavaScript string truthiness (`!s` is true for
`undefined`, `null` and `""`) is modelled by `truthy`.  The Mongo
collection is an association list from identifier strings to documents;
Mongoose's client-side document validation (which runs before any write
is sent to the store) is modelled by `validateBlog`, and a rejected
promise caught by a route's `catch (err)` block is modelled by the 500
result the route then sends.  Calls to Cloudinary's `destroy` are
recorded in a trace list, and the external backend's behaviour is a
parameter `backend : String → Except String Nat` (`Except.error` models a
rejected/thrown `destroy`, the `Nat` an opaque success payload).
-/

namespace BlogPanel

/-- JavaScript string truthiness for a possibly-absent string:
`!s` is `true` exactly for `undefined`, `null` and `""`. -/
def truthy (o : Option String) : Bool :=
  match o with
  | some s => s != ""
  | none => false

/-- JavaScript `a || b` on possibly-absent strings: `a` when `a` is
truthy, otherwise `b`. -/
def jsOrS (a b : Option String) : Option String :=
  match a with
  | some s => if s == "" then b else some s
  | none => b

/-- One hexadecimal digit (either case). -/
def isHexChar (c : Char) : Bool :=
  c.isDigit || (decide ('a' ≤ c) && decide (c ≤ 'f')) ||
    (decide ('A' ≤ c) && decide (c ≤ 'F'))

/-- `mongoose.Types.ObjectId.isValid` on a string argument: a 24-character
hexadecimal string, or any 12-character string. -/
def isValidObjectId (s : String) : Bool :=
  s.length == 12 || (s.length == 24 && s.toList.all isHexChar)

/-- JavaScript `s.substring(0, s.lastIndexOf('.'))`: the characters before
the last `'.'`, and `""` when there is no `'.'` (since `substring(0, -1)`
clamps to the empty string). -/
def takeToLastDot (s : String) : String :=
  match s.toList.reverse.dropWhile (fun c => c != '.') with
  | [] => ""
  | _ :: rest => String.mk rest.reverse

/-- `getPublicIdFromUrl` from the richer variant: `null` for a falsy url,
otherwise join the last two `/`-separated segments (JavaScript
`slice(-2)` keeps the whole array when it has fewer than two elements)
and strip the extension after the last dot.  The `try`/`catch` in the
source can never fire on these string operations, so no error branch is
modelled. -/
def getPublicIdFromUrl (url : Option String) : Option String :=
  match url with
  | none => none
  | some u =>
    if u == "" then none
    else
      let urlParts := u.splitOn "/"
      let publicIdWithFolder :=
        String.intercalate "/" (urlParts.drop (urlParts.length - 2))
      some (takeToLastDot publicIdWithFolder)

/-! ## Data model, richer variant -/

/-- A document of the `Blog` collection in the richer variant.  Every
field is `Option String`: Mongo documents may lack any field, and
Mongoose's `findByIdAndUpdate` does not run schema validators (its
default), so stored documents are only known to satisfy the schema when
they were written through a validated `save`. -/
structure Blog where
  title : Option String
  content : Option String
  category : Option String
  subcategory : Option String
  author : Option String
  image : Option String
  imagePublicId : Option String
  status : Option String
  deriving Repr, DecidableEq

/-- The `Blog` collection: identifier-keyed association list. -/
abbrev DB := List (String × Blog)

/-- `Blog.findById`: first document whose key equals `id`. -/
def findById (db : DB) (id : String) : Option Blog :=
  match db with
  | [] => none
  | (i, b) :: rest => if i == id then some b else findById rest id

/-- A partial update document (`req.body`, possibly extended with image
fields): only the `some` fields are present in the `$set`. -/
structure BlogUpdate where
  title : Option String
  content : Option String
  category : Option String
  subcategory : Option String
  author : Option String
  image : Option String
  imagePublicId : Option String
  status : Option String
  deriving Repr, DecidableEq

/-- The all-absent update document (an empty `req.body`). -/
def emptyUpdate : BlogUpdate :=
  ⟨none, none, none, none, none, none, none, none⟩

/-- One field of a `$set` merge: the new value when supplied, otherwise
the old one. -/
def setOr (n o : Option String) : Option String :=
  match n with
  | some v => some v
  | none => o

/-- Mongoose `findByIdAndUpdate` with a plain object treats it as a
`$set`: supplied fields overwrite, omitted fields are untouched. -/
def applyUpdate (b : Blog) (u : BlogUpdate) : Blog :=
  { title := setOr u.title b.title
    content := setOr u.content b.content
    category := setOr u.category b.category
    subcategory := setOr u.subcategory b.subcategory
    author := setOr u.author b.author
    image := setOr u.image b.image
    imagePublicId := setOr u.imagePublicId b.imagePublicId
    status := setOr u.status b.status }

/-- `Blog.findByIdAndUpdate`: merge `u` into the (unique) document with
key `id`, leaving everything else unchanged. -/
def updateById (db : DB) (id : String) (u : BlogUpdate) : DB :=
  match db with
  | [] => []
  | (i, b) :: rest =>
    if i == id then (i, applyUpdate b u) :: rest
    else (i, b) :: updateById rest id u

/-- `Blog.findByIdAndDelete`: remove the (unique) document with key `id`. -/
def removeById (db : DB) (id : String) : DB :=
  match db with
  | [] => []
  | (i, b) :: rest => if i == id then rest else (i, b) :: removeById rest id

/-- The `subcategory` enum of the richer schema. -/
def subcategoryEnum : List String := ["Article", "Tutorial", "Interview Questions"]

/-- The `status` enum of the richer schema. -/
def statusEnum : List String :=
  ["Trending", "Featured", "Editor\x27s Pick", "Recommended", "None"]

/-- Mongoose `required: true` on a `String` path: fails for an absent,
null or empty-string value. -/
def requiredOk (o : Option String) : Bool :=
  match o with
  | some s => s != ""
  | none => false

/-- Mongoose document validation run by `save()` for the richer schema:
`title`, `content`, `category`, `author` required; `subcategory` required
and in its enum; `status` in its enum when present.  This runs on the
client before anything is sent to the store. -/
def validateBlog (b : Blog) : Bool :=
  requiredOk b.title && requiredOk b.content && requiredOk b.category &&
    requiredOk b.author &&
    (match b.subcategory with
     | some s => subcategoryEnum.contains s
     | none => false) &&
    (match b.status with
     | some s => statusEnum.contains s
     | none => true)

/-- `image` and `imagePublicId` are both absent or both present. -/
def attachmentConsistent (b : Blog) : Bool :=
  b.image.isSome == b.imagePublicId.isSome

/-! ## CORS and Cloudinary helpers -/

/-- The CORS allow-list of the richer variant. -/
def allowedOrigins : List String :=
  ["https://www.connectingdotserp.com",
   "https://connectingdotserp.com",
   "https://blog-frontend-psi-bay.vercel.app"]

/-- The `corsOptions.origin` decision: `callback(null, true)` exactly when
`!origin || allowedOrigins.includes(origin)`.  `origin` is
`req.headers.origin`: `none` when the header is absent. -/
def corsAccepts (origin : Option String) : Bool :=
  match origin with
  | none => true
  | some o => (o == "") || allowedOrigins.contains o

/-- `deleteCloudinaryImage`: returns immediately on a falsy public id
without contacting the backend; otherwise calls `destroy` and catches any
error (returning `undefined`, modelled `none`).  The first component is
what the `async` function settles with (never `Except.error`: the `catch`
swallows), the second the trace of `destroy` calls issued. -/
def deleteCloudinaryImage (backend : String → Except String Nat)
    (publicId : Option String) : Except String (Option Nat) × List String :=
  if truthy publicId then
    match backend (publicId.getD "") with
    | Except.ok r => (Except.ok (some r), [publicId.getD ""])
    | Except.error _ => (Except.ok none, [publicId.getD ""])
  else (Except.ok none, [])

/-! ## Route handlers, richer variant -/

/-- A `req.file` produced by multer's Cloudinary storage: `path` is the
Cloudinary URL, `filename` the public id Cloudinary assigned (possibly
absent, in which case the handler falls back to parsing the URL). -/
structure FileInfo where
  path : String
  filename : Option String
  deriving Repr, DecidableEq

/-- The request to `POST /api/blogs`: body fields plus optional upload. -/
structure CreateReq where
  title : Option String
  content : Option String
  category : Option String
  subcategory : Option String
  author : Option String
  status : Option String
  file : Option FileInfo
  deriving Repr, DecidableEq

/-- Result of a create route: HTTP status, resulting collection, and
whether a write reached the document store. -/
structure CreateResult (δ : Type) where
  status : Nat
  db : δ
  storeWrite : Bool
  deriving Repr, DecidableEq

/-- The document `new Blog({...})` built by `POST /api/blogs`:
body fields passed through, image fields from the upload
(`imagePublicId = req.file.filename || getPublicIdFromUrl(imagePath)`),
and `status: status || "None"`. -/
def newBlogOfReq (req : CreateReq) : Blog :=
  { title := req.title
    content := req.content
    category := req.category
    subcategory := req.subcategory
    author := req.author
    image := req.file.map FileInfo.path
    imagePublicId :=
      match req.file with
      | none => none
      | some f => jsOrS f.filename (getPublicIdFromUrl (some f.path))
    status := jsOrS req.status (some "None") }

/-- `POST /api/blogs` (richer variant): build the document, `save()` it.
A Mongoose validation failure rejects before any store write and the
route's `catch` answers 500; otherwise the document is inserted and the
route answers 201. -/
def createBlog (req : CreateReq) (newId : String) (db : DB) : CreateResult DB :=
  let newBlog := newBlogOfReq req
  if validateBlog newBlog then ⟨201, db ++ [(newId, newBlog)], true⟩
  else ⟨500, db, false⟩

/-- Result of a get route: HTTP status, returned document, and whether
the document store was contacted. -/
structure GetResult (α : Type) where
  status : Nat
  blog : Option α
  storeQueried : Bool
  deriving Repr, DecidableEq

/-- `GET /api/blogs/:id` (richer variant): 400 before any store access on
an invalid id, 404 when absent, 200 with the document otherwise. -/
def getBlogById (id : String) (db : DB) : GetResult Blog :=
  if isValidObjectId id then
    match findById db id with
    | none => ⟨404, none, true⟩
    | some b => ⟨200, some b, true⟩
  else ⟨400, none, false⟩

/-- The Mongo filter built by `GET /api/blogs` in the richer variant:
each of `category`, `subcategory`, `status` is added to the query exactly
when truthy (`if (category) query.category = category;` etc.). -/
def matchesQuery (category subcategory status : Option String) (b : Blog) : Bool :=
  (!truthy category || b.category == category) &&
    (!truthy subcategory || b.subcategory == subcategory) &&
    (!truthy status || b.status == status)

/-- `GET /api/blogs` (richer variant): `Blog.find(query)`. -/
def listBlogs (category subcategory status : Option String) (db : DB) : List Blog :=
  (db.map Prod.snd).filter (matchesQuery category subcategory status)

/-- The request to `PUT /api/blogs/:id`: body fields plus optional new
upload. -/
structure UpdateReq where
  body : BlogUpdate
  file : Option FileInfo
  deriving Repr, DecidableEq

/-- Result of the update route: HTTP status, resulting collection, trace
of Cloudinary `destroy` calls, and whether the store was contacted. -/
structure UpdateResult where
  status : Nat
  db : DB
  cloudCalls : List String
  storeQueried : Bool
  deriving Repr, DecidableEq

/-- The update document after a new upload: `req.body` with
`updatedData.image = req.file.path` and
`updatedData.imagePublicId = req.file.filename || getPublicIdFromUrl(...)`. -/
def newImageData (body : BlogUpdate) (f : FileInfo) : BlogUpdate :=
  { body with
    image := some f.path
    imagePublicId := jsOrS f.filename (getPublicIdFromUrl (some f.path)) }

/-- `PUT /api/blogs/:id` (richer variant): 400 before any store access on
an invalid id; 404 when the document is absent; otherwise, when a new
file is uploaded, first delete the old Cloudinary image if the document
holds a truthy `imagePublicId` (awaited, so a thrown error would reach
the route's `catch` as a 500 — `deleteCloudinaryImage` never throws),
then `findByIdAndUpdate` with the merged data. -/
def updateBlog (backend : String → Except String Nat) (id : String)
    (req : UpdateReq) (db : DB) : UpdateResult :=
  if isValidObjectId id then
    match findById db id with
    | none => ⟨404, db, [], true⟩
    | some existingBlog =>
      match req.file with
      | none => ⟨200, updateById db id req.body, [], true⟩
      | some f =>
        let del :=
          if truthy existingBlog.imagePublicId then
            deleteCloudinaryImage backend existingBlog.imagePublicId
          else (Except.ok none, [])
        match del.1 with
        | Except.error _ => ⟨500, db, del.2, true⟩
        | Except.ok _ =>
          ⟨200, updateById db id (newImageData req.body f), del.2, true⟩
  else ⟨400, db, [], false⟩

/-- Result of the delete route: HTTP status, resulting collection, trace
of Cloudinary `destroy` calls, and whether the store was contacted. -/
structure DeleteResult where
  status : Nat
  db : DB
  cloudCalls : List String
  storeQueried : Bool
  deriving Repr, DecidableEq

/-- `DELETE /api/blogs/:id` (richer variant): 400 before any store access
on an invalid id; 404 when absent; otherwise delete the Cloudinary image
if the document holds a truthy `imagePublicId` (awaited before the record
removal), then `findByIdAndDelete`. -/
def deleteBlog (backend : String → Except String Nat) (id : String)
    (db : DB) : DeleteResult :=
  if isValidObjectId id then
    match findById db id with
    | none => ⟨404, db, [], true⟩
    | some blogToDelete =>
      let del :=
        if truthy blogToDelete.imagePublicId then
          deleteCloudinaryImage backend blogToDelete.imagePublicId
        else (Except.ok none, [])
      match del.1 with
      | Except.error _ => ⟨500, db, del.2, true⟩
      | Except.ok _ => ⟨200, removeById db id, del.2, true⟩
  else ⟨400, db, [], false⟩

/-! ## Data model and routes, simpler variant -/

/-- A document of the `Blog` collection in the simpler variant: no
`subcategory`, `imagePublicId` or `status`. -/
structure Blog1 where
  title : Option String
  content : Option String
  category : Option String
  author : Option String
  image : Option String
  deriving Repr, DecidableEq

/-- The simpler variant's collection. -/
abbrev DB1 := List (String × Blog1)

/-- `Blog.findById` for the simpler variant. -/
def findById1 (db : DB1) (id : String) : Option Blog1 :=
  match db with
  | [] => none
  | (i, b) :: rest => if i == id then some b else findById1 rest id

/-- The request to the simpler variant's `POST /api/blogs`: body fields
plus the optional uploaded file's disk filename. -/
structure CreateReq1 where
  title : Option String
  content : Option String
  category : Option String
  author : Option String
  file : Option String
  deriving Repr, DecidableEq

/-- The document built by the simpler create route:
`image = req.file ? /uploads/filename : null`. -/
def newBlogOfReq1 (req : CreateReq1) : Blog1 :=
  { title := req.title
    content := req.content
    category := req.category
    author := req.author
    image := req.file.map (fun fn => "/uploads/" ++ fn) }

/-- Mongoose validation for the simpler schema: the four text fields are
required. -/
def validateBlog1 (b : Blog1) : Bool :=
  requiredOk b.title && requiredOk b.content && requiredOk b.category &&
    requiredOk b.author

/-- `POST /api/blogs` (simpler variant): `save()` validates on the client
before any write; a validation failure is caught and answered 500. -/
def createBlog1 (req : CreateReq1) (newId : String) (db : DB1) :
    CreateResult DB1 :=
  let newBlog := newBlogOfReq1 req
  if validateBlog1 newBlog then ⟨201, db ++ [(newId, newBlog)], true⟩
  else ⟨500, db, false⟩

/-- `GET /api/blogs/:id` (simpler variant): no identifier validation.
`findById` on a malformed id rejects with a `CastError` on the client,
before any round trip to the store, and the route's `catch` answers 500. -/
def getBlogById1 (id : String) (db : DB1) : GetResult Blog1 :=
  if isValidObjectId id then
    match findById1 db id with
    | none => ⟨404, none, true⟩
    | some b => ⟨200, some b, true⟩
  else ⟨500, none, false⟩

/-- `GET /api/blogs` (simpler variant):
`category && category !== "all" ? { category } : {}`. -/
def listBlogs1 (category : Option String) (db : DB1) : List Blog1 :=
  if truthy category = true ∧ category ≠ some "all" then
    (db.map Prod.snd).filter (fun b => b.category == category)
  else db.map Prod.snd

/-! ## Concrete inputs used by counterexamples and witnesses -/

/-- A valid 24-character hexadecimal ObjectId. -/
def oid : String := "aaaaaaaaaaaaaaaaaaaaaaaa"

/-- A second valid ObjectId, distinct from `oid`. -/
def oid2 : String := "bbbbbbbbbbbbbbbbbbbbbbbb"

/-- A schema-valid document with no attachment. -/
def blogPlain : Blog :=
  { title := some "A", content := some "B", category := some "tech"
    subcategory := some "Article", author := some "Z"
    image := none, imagePublicId := none, status := some "None" }

/-- A schema-valid document with an attachment and deletion handle. -/
def blogWithImage : Blog :=
  { title := some "A", content := some "B", category := some "tech"
    subcategory := some "Article", author := some "Z"
    image := some "https://res.cloudinary.com/demo/image/upload/v1/blog-images/old.png"
    imagePublicId := some "blog-images/old", status := some "None" }

/-- A create request missing `title` but otherwise valid. -/
def reqMissingTitle : CreateReq :=
  { title := none, content := some "B", category := some "tech"
    subcategory := some "Article", author := some "Z"
    status := none, file := none }

/-- A fully valid create request with `status` omitted. -/
def reqNoStatus : CreateReq :=
  { title := some "A", content := some "B", category := some "tech"
    subcategory := some "Article", author := some "Z"
    status := none, file := none }

/-- An update body that sets `image` directly, without `imagePublicId`. -/
def updateImageOnly : BlogUpdate :=
  { emptyUpdate with image := some "https://example.com/pic.png" }

/-- A fresh upload as produced by the Cloudinary storage engine. -/
def newUpload : FileInfo :=
  { path := "https://res.cloudinary.com/demo/image/upload/v2/blog-images/new.png"
    filename := some "blog-images/new" }

/-- A backend on which every `destroy` call fails. -/
def failingBackend : String → Except String Nat :=
  fun _ => Except.error "cloudinary down"

/-- A backend on which every `destroy` call succeeds. -/
def okBackend : String → Except String Nat :=
  fun _ => Except.ok 0

/-- A one-document collection for the richer variant. -/
def dbTech : DB := [(oid, blogPlain)]

/-- A one-document collection whose document has category `"tech"`,
for the simpler variant. -/
def dbTech1 : DB1 :=
  [(oid, { title := some "A", content := some "B", category := some "tech"
           author := some "Z", image := none })]

/-- A simpler-variant create request missing `title` but otherwise valid. -/
def reqMissingTitle1 : CreateReq1 :=
  { title := none, content := some "B", category := some "tech"
    author := some "Z", file := none }

/-- A one-document collection whose document holds an attachment handle. -/
def dbWithImage : DB := [(oid, blogWithImage)]

/-! ## Helper lemmas -/

theorem deleteCloudinaryImage_isOk (backend : String → Except String Nat)
    (pid : Option String) :
    ((deleteCloudinaryImage backend pid).1).isOk = true := by
  unfold deleteCloudinaryImage
  by_cases h : truthy pid = true
  · simp only [h, if_true]
    cases backend (pid.getD "") <;> simp [Except.isOk, Except.toBool]
  · simp [h, Except.isOk, Except.toBool]

theorem deleteCloudinaryImage_calls_truthy (backend : String → Except String Nat)
    (pid : Option String) (h : truthy pid = true) :
    (deleteCloudinaryImage backend pid).2 = [pid.getD ""] := by
  unfold deleteCloudinaryImage
  simp only [h, if_true]
  cases backend (pid.getD "") <;> simp

theorem findById_updateById (db : DB) (id : String) (u : BlogUpdate) (b : Blog)
    (h : findById db id = some b) :
    findById (updateById db id u) id = some (applyUpdate b u) := by
  induction db with
  | nil => simp [findById] at h
  | cons p rest ih =>
    obtain ⟨i, bb⟩ := p
    by_cases hi : (i == id) = true
    · simp only [findById, hi, if_true, Option.some.injEq] at h
      subst h
      simp [updateById, findById, hi]
    · simp only [findById, hi, if_false, Bool.false_eq_true] at h
      simp only [updateById, hi, if_false, Bool.false_eq_true, findById]
      exact ih h

theorem findById_eq_none_of_not_mem (db : DB) (id : String)
    (h : id ∉ db.map Prod.fst) : findById db id = none := by
  induction db with
  | nil => rfl
  | cons p rest ih =>
    obtain ⟨i, b⟩ := p
    simp only [List.map_cons, List.mem_cons, not_or] at h
    have hi : (i == id) = false := by
      simp [beq_eq_false_iff_ne]
      intro he
      exact h.1 (by simp [he])
    simp only [findById, hi, Bool.false_eq_true, if_false]
    exact ih h.2

theorem findById_removeById (db : DB) (id : String)
    (h : (db.map Prod.fst).Nodup) : findById (removeById db id) id = none := by
  induction db with
  | nil => rfl
  | cons p rest ih =>
    obtain ⟨i, b⟩ := p
    simp only [List.map_cons, List.nodup_cons] at h
    by_cases hi : (i == id) = true
    · have he : i = id := eq_of_beq hi
      subst he
      simp only [removeById, hi, if_true]
      exact findById_eq_none_of_not_mem rest i h.1
    · simp only [removeById, hi, Bool.false_eq_true, if_false, findById]
      exact ih h.2

theorem all_updateById (db : DB) (id : String) (u : BlogUpdate) (P : Blog → Bool)
    (hdb : db.all (fun p => P p.2) = true)
    (hu : ∀ b, P b = true → P (applyUpdate b u) = true) :
    (updateById db id u).all (fun p => P p.2) = true := by
  induction db with
  | nil => rfl
  | cons p rest ih =>
    obtain ⟨i, b⟩ := p
    simp only [List.all_cons, Bool.and_eq_true] at hdb
    by_cases hi : (i == id) = true
    · simp only [updateById, hi, if_true, List.all_cons, Bool.and_eq_true]
      exact ⟨hu b hdb.1, hdb.2⟩
    · simp only [updateById, hi, Bool.false_eq_true, if_false, List.all_cons,
        Bool.and_eq_true]
      exact ⟨hdb.1, ih hdb.2⟩

theorem all_removeById (db : DB) (id : String) (P : Blog → Bool)
    (hdb : db.all (fun p => P p.2) = true) :
    (removeById db id).all (fun p => P p.2) = true := by
  induction db with
  | nil => rfl
  | cons p rest ih =>
    obtain ⟨i, b⟩ := p
    simp only [List.all_cons, Bool.and_eq_true] at hdb
    by_cases hi : (i == id) = true
    · simp only [removeById, hi, if_true]
      exact hdb.2
    · simp only [removeById, hi, Bool.false_eq_true, if_false, List.all_cons,
        Bool.and_eq_true]
      exact ⟨hdb.1, ih hdb.2⟩

theorem getPublicIdFromUrl_isSome (p : String) (hp : p ≠ "") :
    (getPublicIdFromUrl (some p)).isSome = true := by
  have hb : (p == "") = false := by simpa [beq_eq_false_iff_ne] using hp
  simp [getPublicIdFromUrl, hb]

theorem jsOrS_isSome (a : Option String) (x : String) :
    (jsOrS a (some x)).isSome = true := by
  unfold jsOrS
  match a with
  | none => rfl
  | some s =>
    by_cases h : (s == "") = true <;> simp [h]

/-! ## Claims -/

/-- C1, counterexample: a create request missing `title` (on an empty
collection) is answered with HTTP 500, which is not a client (4xx)
error, contradicting the claim that the validation error is classified
as a client error. -/
theorem createBlog_missing_title_not_client_error :
    (createBlog reqMissingTitle oid []).status = 500 ∧
      (createBlog reqMissingTitle oid []).db = [] ∧
      (createBlog reqMissingTitle oid []).storeWrite = false ∧
      ¬ (createBlog reqMissingTitle oid []).status < 500 := by
  refine ⟨rfl, rfl, rfl, by decide⟩

/-- C1, amended: a create request missing any required field (in either
variant) persists nothing and performs no store write — Mongoose rejects
the `save()` on the client — but the route's catch-all answers HTTP 500,
a server error, not a client error. -/
theorem createBlog_missing_required (req : CreateReq) (newId : String) (db : DB)
    (req1 : CreateReq1) (newId1 : String) (db1 : DB1)
    (h : req.title = none ∨ req.content = none ∨ req.category = none ∨
      req.subcategory = none ∨ req.author = none)
    (h1 : req1.title = none ∨ req1.content = none ∨ req1.category = none ∨
      req1.author = none) :
    createBlog req newId db = ⟨500, db, false⟩ ∧
      createBlog1 req1 newId1 db1 = ⟨500, db1, false⟩ := by
  constructor
  · rcases h with h | h | h | h | h <;>
      simp [createBlog, newBlogOfReq, validateBlog, requiredOk, h]
  · rcases h1 with h1 | h1 | h1 | h1 <;>
      simp [createBlog1, newBlogOfReq1, validateBlog1, requiredOk, h1]

/-- C1, witness for the amended theorem at concrete requests. -/
theorem createBlog_missing_required_witness :
    createBlog reqMissingTitle oid [] = ⟨500, [], false⟩ ∧
      createBlog1 reqMissingTitle1 oid [] = ⟨500, [], false⟩ :=
  createBlog_missing_required reqMissingTitle oid [] reqMissingTitle1 oid []
    (Or.inl rfl) (Or.inl rfl)

/-- C2, counterexample: in the simpler variant, a `GET /api/blogs/:id`
with the malformed identifier `"xyz"` is answered 500 (the driver's cast
failure caught by the route), not the claimed HTTP 400. -/
theorem getBlogById1_invalid_id_counterexample :
    getBlogById1 "xyz" [] = ⟨500, none, false⟩ ∧
      (getBlogById1 "xyz" []).status ≠ 400 := by
  refine ⟨by decide, by decide⟩

/-- C2, amended: in the richer variant a syntactically invalid id is
answered 400 with no document-store access, identically for Get, Update
and Delete; in the simpler variant there is no id validation and a
malformed id is answered 500 (still without a store round trip, the cast
failing on the client). -/
theorem invalid_id_behavior (id : String) (db : DB) (db1 : DB1)
    (backend : String → Except String Nat) (req : UpdateReq)
    (h : isValidObjectId id = false) :
    getBlogById id db = ⟨400, none, false⟩ ∧
      updateBlog backend id req db = ⟨400, db, [], false⟩ ∧
      deleteBlog backend id db = ⟨400, db, [], false⟩ ∧
      getBlogById1 id db1 = ⟨500, none, false⟩ := by
  refine ⟨?_, ?_, ?_, ?_⟩ <;>
    simp [getBlogById, updateBlog, deleteBlog, getBlogById1, h]

/-- C2, witness for the amended theorem at the malformed id `"xyz"`. -/
theorem invalid_id_behavior_witness :
    getBlogById "xyz" dbTech = ⟨400, none, false⟩ ∧
      updateBlog okBackend "xyz" ⟨emptyUpdate, none⟩ dbTech = ⟨400, dbTech, [], false⟩ ∧
      deleteBlog okBackend "xyz" dbTech = ⟨400, dbTech, [], false⟩ ∧
      getBlogById1 "xyz" dbTech1 = ⟨500, none, false⟩ :=
  invalid_id_behavior "xyz" dbTech dbTech1 okBackend ⟨emptyUpdate, none⟩ (by decide)

/-- C3, counterexample: in the richer variant the category filter
`"all"` is not special — on a collection holding one post of category
`"tech"`, `GET /api/blogs?category=all` returns the empty list, not the
full collection as the claim states. -/
theorem listBlogs_all_filter_counterexample :
    listBlogs (some "all") none none dbTech = [] ∧
      listBlogs (some "all") none none dbTech ≠ dbTech.map Prod.snd := by
  refine ⟨rfl, by decide⟩

/-- C3, amended: in the simpler variant an absent, empty or `"all"`
category filter returns the full collection and any other category value
`X` returns exactly the posts whose category equals `X`; in the richer
variant only an absent or empty filter passes through, and every truthy
value `X` — including `"all"` — returns exactly the posts whose category
equals `X`. -/
theorem list_category_filter (db1 : DB1) (db : DB) (X : String) :
    (listBlogs1 none db1 = db1.map Prod.snd) ∧
      (listBlogs1 (some "") db1 = db1.map Prod.snd) ∧
      (listBlogs1 (some "all") db1 = db1.map Prod.snd) ∧
      (X ≠ "" → X ≠ "all" →
        listBlogs1 (some X) db1 =
          (db1.map Prod.snd).filter (fun b => b.category == some X)) ∧
      (listBlogs none none none db = db.map Prod.snd) ∧
      (listBlogs (some "") none none db = db.map Prod.snd) ∧
      (X ≠ "" →
        listBlogs (some X) none none db =
          (db.map Prod.snd).filter (fun b => b.category == some X)) := by
  refine ⟨?_, ?_, ?_, ?_, ?_, ?_, ?_⟩
  · simp [listBlogs1, truthy]
  · simp [listBlogs1, truthy]
  · simp [listBlogs1, truthy]
  · intro hX hall
    have hb : (X != "") = true := by simpa [bne_iff_ne] using hX
    simp [listBlogs1, truthy, hb, hall]
  · simp [listBlogs, matchesQuery, truthy]
  · simp [listBlogs, matchesQuery, truthy]
  · intro hX
    have hb : (X != "") = true := by simpa [bne_iff_ne] using hX
    unfold listBlogs
    refine List.filter_congr ?_
    intro b _
    simp [matchesQuery, truthy, hb]

/-- C3, witness for the amended theorem at concrete collections and the
filter value `"tech"`. -/
theorem list_category_filter_witness :
    listBlogs1 (some "all") dbTech1 = dbTech1.map Prod.snd ∧
      listBlogs1 (some "tech") dbTech1 =
        (dbTech1.map Prod.snd).filter (fun b => b.category == some "tech") ∧
      listBlogs (some "tech") none none dbTech =
        (dbTech.map Prod.snd).filter (fun b => b.category == some "tech") :=
  ⟨(list_category_filter dbTech1 dbTech "tech").2.2.1,
   (list_category_filter dbTech1 dbTech "tech").2.2.2.1 (by decide) (by decide),
   (list_category_filter dbTech1 dbTech "tech").2.2.2.2.2.2 (by decide)⟩

/-- C4, confirmed: an update supplying a new attachment, on an existing
post holding an old attachment handle, issues exactly one Cloudinary
`destroy` call — for the old handle — and commits the field update with
the post's `image` equal to the new upload's path; the conclusion holds
for every backend behaviour, so a failing `destroy` never prevents the
commit. -/
theorem update_new_attachment (backend : String → Except String Nat)
    (id : String) (db : DB) (b : Blog) (body : BlogUpdate) (f : FileInfo)
    (h1 : isValidObjectId id = true) (h2 : findById db id = some b)
    (h3 : truthy b.imagePublicId = true) :
    (updateBlog backend id ⟨body, some f⟩ db).status = 200 ∧
      (updateBlog backend id ⟨body, some f⟩ db).cloudCalls =
        [b.imagePublicId.getD ""] ∧
      (updateBlog backend id ⟨body, some f⟩ db).db =
        updateById db id (newImageData body f) ∧
      (findById (updateBlog backend id ⟨body, some f⟩ db).db id).map Blog.image =
        some (some f.path) := by
  have hok := deleteCloudinaryImage_isOk backend b.imagePublicId
  have hcalls := deleteCloudinaryImage_calls_truthy backend b.imagePublicId h3
  have hup : updateBlog backend id ⟨body, some f⟩ db =
      ⟨200, updateById db id (newImageData body f),
        (deleteCloudinaryImage backend b.imagePublicId).2, true⟩ := by
    unfold updateBlog
    simp only [h1, if_true, h2, h3]
    cases hdel : (deleteCloudinaryImage backend b.imagePublicId).1 with
    | error e => rw [hdel] at hok; simp [Except.isOk, Except.toBool] at hok
    | ok v => simp [hdel]
  rw [hup, hcalls]
  refine ⟨rfl, rfl, rfl, ?_⟩
  rw [findById_updateById db id (newImageData body f) b h2]
  simp [applyUpdate, newImageData, setOr]

/-- C4, witness: concrete update with a new upload on a post holding an
old handle, against a backend on which the `destroy` call fails. -/
theorem update_new_attachment_witness :
    (updateBlog failingBackend oid ⟨emptyUpdate, some newUpload⟩ dbWithImage).status
        = 200 ∧
      (updateBlog failingBackend oid ⟨emptyUpdate, some newUpload⟩ dbWithImage).cloudCalls
        = [(blogWithImage.imagePublicId).getD ""] ∧
      (updateBlog failingBackend oid ⟨emptyUpdate, some newUpload⟩ dbWithImage).db
        = updateById dbWithImage oid (newImageData emptyUpdate newUpload) ∧
      (findById (updateBlog failingBackend oid
          ⟨emptyUpdate, some newUpload⟩ dbWithImage).db oid).map Blog.image
        = some (some newUpload.path) :=
  update_new_attachment failingBackend oid dbWithImage blogWithImage emptyUpdate
    newUpload (by decide) (by decide) (by decide)

/-- C5, confirmed: an update with no new upload merges exactly the
supplied body fields into the stored post (`$set` semantics): every
omitted field keeps its pre-update value and every supplied field takes
the supplied value. -/
theorem update_merge_semantics (backend : String → Except String Nat)
    (id : String) (db : DB) (b : Blog) (u : BlogUpdate)
    (h1 : isValidObjectId id = true) (h2 : findById db id = some b) :
    updateBlog backend id ⟨u, none⟩ db = ⟨200, updateById db id u, [], true⟩ ∧
      findById (updateById db id u) id = some (applyUpdate b u) ∧
      (u.title = none → (applyUpdate b u).title = b.title) ∧
      (u.content = none → (applyUpdate b u).content = b.content) ∧
      (u.category = none → (applyUpdate b u).category = b.category) ∧
      (u.subcategory = none → (applyUpdate b u).subcategory = b.subcategory) ∧
      (u.author = none → (applyUpdate b u).author = b.author) ∧
      (u.image = none → (applyUpdate b u).image = b.image) ∧
      (u.imagePublicId = none → (applyUpdate b u).imagePublicId = b.imagePublicId) ∧
      (u.status = none → (applyUpdate b u).status = b.status) ∧
      (∀ v, u.title = some v → (applyUpdate b u).title = some v) ∧
      (∀ v, u.content = some v → (applyUpdate b u).content = some v) ∧
      (∀ v, u.category = some v → (applyUpdate b u).category = some v) ∧
      (∀ v, u.subcategory = some v → (applyUpdate b u).subcategory = some v) ∧
      (∀ v, u.author = some v → (applyUpdate b u).author = some v) ∧
      (∀ v, u.image = some v → (applyUpdate b u).image = some v) ∧
      (∀ v, u.imagePublicId = some v → (applyUpdate b u).imagePublicId = some v) ∧
      (∀ v, u.status = some v → (applyUpdate b u).status = some v) := by
  refine ⟨by simp [updateBlog, h1, h2],
    findById_updateById db id u b h2,
    ?_, ?_, ?_, ?_, ?_, ?_, ?_, ?_, ?_, ?_, ?_, ?_, ?_, ?_, ?_, ?_⟩ <;>
    · intros
      simp [applyUpdate, setOr, *]

/-- C5, witness: concrete partial update setting only `image`; the
handler commits the merge and the omitted `title` keeps its value. -/
theorem update_merge_semantics_witness :
    updateBlog okBackend oid ⟨updateImageOnly, none⟩ dbWithImage =
        ⟨200, updateById dbWithImage oid updateImageOnly, [], true⟩ ∧
      (applyUpdate blogWithImage updateImageOnly).title = blogWithImage.title :=
  ⟨(update_merge_semantics okBackend oid dbWithImage blogWithImage updateImageOnly
      (by decide) (by decide)).1,
   (update_merge_semantics okBackend oid dbWithImage blogWithImage updateImageOnly
      (by decide) (by decide)).2.2.1 rfl⟩

/-- C6, confirmed: deleting an existing post (unique ids) answers 200,
removes the record — a subsequent Get on the same id is answered 404 —
and issues the Cloudinary deletion request for the post's handle exactly
when the post held a truthy one.  The conclusion holds for every backend
behaviour. -/
theorem delete_blog_removes (backend : String → Except String Nat)
    (id : String) (db : DB) (b : Blog)
    (h1 : isValidObjectId id = true) (h2 : findById db id = some b)
    (h3 : (db.map Prod.fst).Nodup) :
    (deleteBlog backend id db).status = 200 ∧
      (deleteBlog backend id db).db = removeById db id ∧
      findById (removeById db id) id = none ∧
      getBlogById id (removeById db id) = ⟨404, none, true⟩ ∧
      (deleteBlog backend id db).cloudCalls =
        (if truthy b.imagePublicId = true then [b.imagePublicId.getD ""] else []) := by
  have hfr := findById_removeById db id h3
  have hdel : deleteBlog backend id db =
      ⟨200, removeById db id,
        (if truthy b.imagePublicId = true
         then [b.imagePublicId.getD ""] else []), true⟩ := by
    unfold deleteBlog
    simp only [h1, if_true, h2]
    by_cases h4 : truthy b.imagePublicId = true
    · have hok := deleteCloudinaryImage_isOk backend b.imagePublicId
      have hcalls := deleteCloudinaryImage_calls_truthy backend b.imagePublicId h4
      simp only [h4, if_true]
      cases hd : (deleteCloudinaryImage backend b.imagePublicId).1 with
      | error e => rw [hd] at hok; simp [Except.isOk, Except.toBool] at hok
      | ok v => simp [hd, hcalls]
    · simp [h4]
  rw [hdel]
  exact ⟨rfl, rfl, hfr, by simp [getBlogById, h1, hfr], rfl⟩

/-- C6, witness: concrete delete of a post holding an attachment handle,
against a backend on which the `destroy` call fails. -/
theorem delete_blog_removes_witness :
    (deleteBlog failingBackend oid dbWithImage).status = 200 ∧
      getBlogById oid (removeById dbWithImage oid) = ⟨404, none, true⟩ :=
  ⟨(delete_blog_removes failingBackend oid dbWithImage blogWithImage
      (by decide) (by decide) (by decide)).1,
   (delete_blog_removes failingBackend oid dbWithImage blogWithImage
      (by decide) (by decide) (by decide)).2.2.2.1⟩

/-- C7, counterexample: starting from a consistent collection, an update
whose body directly supplies `image` (and no `imagePublicId`, with no
file uploaded) commits a post with an attachment reference but no
deletion handle, breaking the both-absent-or-both-present invariant. -/
theorem update_body_breaks_attachment_invariant :
    dbTech.all (fun p => attachmentConsistent p.2) = true ∧
      ((findById (updateBlog okBackend oid ⟨updateImageOnly, none⟩ dbTech).db oid).map
          attachmentConsistent) = some false := by
  refine ⟨by decide, by decide⟩

/-- C7, amended: on a collection in which every post has `image` and
`imagePublicId` both absent or both present, the invariant is preserved
by Create (for uploads with a nonempty path), by Update when a new file
is uploaded or when the request body supplies neither `image` nor
`imagePublicId` directly, and by Delete; an Update body supplying
exactly one of the two fields can violate it. -/
theorem attachment_invariant_preserved (req : CreateReq) (newId : String)
    (db : DB) (backend : String → Except String Nat) (id : String)
    (u : BlogUpdate) (f : FileInfo)
    (hdb : db.all (fun p => attachmentConsistent p.2) = true) :
    ((∀ g, req.file = some g → g.path ≠ "") →
        (createBlog req newId db).db.all (fun p => attachmentConsistent p.2) = true) ∧
      (f.path ≠ "" →
        (updateBlog backend id ⟨u, some f⟩ db).db.all
          (fun p => attachmentConsistent p.2) = true) ∧
      (u.image = none → u.imagePublicId = none →
        (updateBlog backend id ⟨u, none⟩ db).db.all
          (fun p => attachmentConsistent p.2) = true) ∧
      (deleteBlog backend id db).db.all (fun p => attachmentConsistent p.2) = true := by
  have hnew : (∀ g, req.file = some g → g.path ≠ "") →
      attachmentConsistent (newBlogOfReq req) = true := by
    intro hg
    cases hfile : req.file with
    | none => simp [newBlogOfReq, attachmentConsistent, hfile]
    | some g =>
      have hp : g.path ≠ "" := hg g hfile
      obtain ⟨x, hx⟩ :=
        Option.isSome_iff_exists.mp (getPublicIdFromUrl_isSome g.path hp)
      simp [newBlogOfReq, attachmentConsistent, hfile, hx, jsOrS_isSome]
  refine ⟨?_, ?_, ?_, ?_⟩
  · intro hg
    unfold createBlog
    by_cases hv : validateBlog (newBlogOfReq req) = true
    · simp [hv, List.all_append, hdb, hnew hg]
    · simp [hv, hdb]
  · intro hp
    have hu : ∀ b, attachmentConsistent b = true →
        attachmentConsistent (applyUpdate b (newImageData u f)) = true := by
      intro b _
      obtain ⟨x, hx⟩ :=
        Option.isSome_iff_exists.mp (getPublicIdFromUrl_isSome f.path hp)
      obtain ⟨y, hy⟩ := Option.isSome_iff_exists.mp (jsOrS_isSome f.filename x)
      simp [applyUpdate, newImageData, setOr, attachmentConsistent, hx, hy]
    unfold updateBlog
    by_cases h1 : isValidObjectId id = true
    · rw [if_pos h1]
      cases h2 : findById db id with
      | none => simpa using hdb
      | some eb =>
        by_cases h3 : truthy eb.imagePublicId = true
        · have hok := deleteCloudinaryImage_isOk backend eb.imagePublicId
          cases hd : (deleteCloudinaryImage backend eb.imagePublicId).1 with
          | error e => rw [hd] at hok; simp [Except.isOk, Except.toBool] at hok
          | ok v =>
            simp only [h3, if_true, hd]
            exact all_updateById db id (newImageData u f) _ hdb hu
        · have hif : (if truthy eb.imagePublicId = true
              then deleteCloudinaryImage backend eb.imagePublicId
              else (Except.ok none, [])) = (Except.ok none, []) := if_neg h3
          simp only [hif]
          exact all_updateById db id (newImageData u f) _ hdb hu
    · rw [if_neg h1]
      exact hdb
  · intro hi hpi
    have hu : ∀ b, attachmentConsistent b = true →
        attachmentConsistent (applyUpdate b u) = true := by
      intro b hb
      simpa [applyUpdate, setOr, hi, hpi, attachmentConsistent] using hb
    unfold updateBlog
    by_cases h1 : isValidObjectId id = true
    · rw [if_pos h1]
      cases h2 : findById db id with
      | none => simpa using hdb
      | some eb => simpa using all_updateById db id u _ hdb hu
    · rw [if_neg h1]
      exact hdb
  · unfold deleteBlog
    by_cases h1 : isValidObjectId id = true
    · rw [if_pos h1]
      cases h2 : findById db id with
      | none => simpa using hdb
      | some eb =>
        by_cases h3 : truthy eb.imagePublicId = true
        · have hok := deleteCloudinaryImage_isOk backend eb.imagePublicId
          cases hd : (deleteCloudinaryImage backend eb.imagePublicId).1 with
          | error e => rw [hd] at hok; simp [Except.isOk, Except.toBool] at hok
          | ok v =>
            simp only [h3, if_true, hd]
            exact all_removeById db id _ hdb
        · have hif : (if truthy eb.imagePublicId = true
              then deleteCloudinaryImage backend eb.imagePublicId
              else (Except.ok none, [])) = (Except.ok none, []) := if_neg h3
          simp only [hif]
          exact all_removeById db id _ hdb
    · rw [if_neg h1]
      exact hdb

/-- C7, witness for the amended theorem: deleting from a concrete
consistent collection keeps every remaining post consistent. -/
theorem attachment_invariant_preserved_witness :
    (deleteBlog okBackend oid dbWithImage).db.all
      (fun p => attachmentConsistent p.2) = true :=
  (attachment_invariant_preserved reqNoStatus oid dbWithImage okBackend oid
    emptyUpdate newUpload (by decide)).2.2.2

/-- C8, confirmed: a create request with `status` omitted builds a post
whose status is `"None"`; a supplied status drawn from the enum is
stored verbatim; and a document passing validation is persisted with a
201 answer. -/
theorem create_status_default (req : CreateReq) (newId : String) (db : DB) :
    (req.status = none → (newBlogOfReq req).status = some "None") ∧
      (∀ s, req.status = some s → s ∈ statusEnum →
        (newBlogOfReq req).status = some s) ∧
      (validateBlog (newBlogOfReq req) = true →
        createBlog req newId db = ⟨201, db ++ [(newId, newBlogOfReq req)], true⟩) := by
  refine ⟨?_, ?_, ?_⟩
  · intro h
    simp [newBlogOfReq, jsOrS, h]
  · intro s hs hmem
    have hst : (newBlogOfReq req).status = jsOrS req.status (some "None") := rfl
    rw [hst, hs]
    simp only [statusEnum, List.mem_cons, List.not_mem_nil, or_false] at hmem
    rcases hmem with rfl | rfl | rfl | rfl | rfl <;> rfl
  · intro hv
    simp [createBlog, hv]

/-- C8, witness: concrete create request with `status` omitted. -/
theorem create_status_default_witness :
    (newBlogOfReq reqNoStatus).status = some "None" ∧
      createBlog reqNoStatus oid [] =
        ⟨201, [] ++ [(oid, newBlogOfReq reqNoStatus)], true⟩ :=
  ⟨(create_status_default reqNoStatus oid []).1 rfl,
   (create_status_default reqNoStatus oid []).2.2 (by decide)⟩

/-- C9, counterexample: an Origin header present but empty is accepted
by the CORS check (`!origin` is true for `""`), although it is neither
an absent header nor a member of the allow-list — contradicting the
claim that exactly the absent-or-allow-listed origins are accepted. -/
theorem cors_empty_origin_counterexample :
    corsAccepts (some "") = true ∧ allowedOrigins.contains "" = false ∧
      (some "" : Option String) ≠ none := by
  refine ⟨rfl, by decide, by decide⟩

/-- C9, amended: the CORS check accepts a request exactly when the
Origin header is absent, empty, or a member of the allow-list. -/
theorem corsAccepts_iff (origin : Option String) :
    corsAccepts origin = true ↔
      origin = none ∨ origin = some "" ∨
        ∃ s, origin = some s ∧ s ∈ allowedOrigins := by
  cases origin with
  | none => simp [corsAccepts]
  | some o =>
    constructor
    · intro h
      simp only [corsAccepts, Bool.or_eq_true, beq_iff_eq] at h
      rcases h with rfl | hc
      · exact Or.inr (Or.inl rfl)
      · exact Or.inr (Or.inr
          ⟨o, rfl, by simpa [List.contains, List.elem_iff] using hc⟩)
    · intro h
      rcases h with h | h | ⟨s, hs, hmem⟩
      · exact absurd h (by simp)
      · injection h with h
        subst h
        rfl
      · injection hs with hs
        subst hs
        have hc : allowedOrigins.contains o = true := by
          simpa [List.contains, List.elem_iff] using hmem
        simp only [corsAccepts, Bool.or_eq_true]
        exact Or.inr hc

/-- C10, confirmed: the Cloudinary deletion helper always settles
successfully: on a falsy public id it issues no backend call and returns
at once; on a truthy public id it issues exactly one `destroy` call and,
when that call fails, swallows the failure and returns `undefined`. -/
theorem deleteCloudinaryImage_spec (backend : String → Except String Nat)
    (pid : Option String) :
    ((deleteCloudinaryImage backend pid).1).isOk = true ∧
      (truthy pid = false →
        deleteCloudinaryImage backend pid = (Except.ok none, [])) ∧
      (∀ s e, pid = some s → backend s = Except.error e → truthy pid = true →
        deleteCloudinaryImage backend pid = (Except.ok none, [s])) := by
  refine ⟨deleteCloudinaryImage_isOk backend pid, ?_, ?_⟩
  · intro h
    unfold deleteCloudinaryImage
    simp [h]
  · intro s e hs hb ht
    subst hs
    unfold deleteCloudinaryImage
    simp [ht, hb]

/-- C10, witness: a failing backend call is swallowed; an absent public
id issues no call. -/
theorem deleteCloudinaryImage_spec_witness :
    deleteCloudinaryImage failingBackend (some "img") = (Except.ok none, ["img"]) ∧
      deleteCloudinaryImage failingBackend none = (Except.ok none, []) :=
  ⟨(deleteCloudinaryImage_spec failingBackend (some "img")).2.2 "img"
      "cloudinary down" rfl rfl (by decide),
   (deleteCloudinaryImage_spec failingBackend none).2.1 rfl⟩

end BlogPanel
